import Mathlib

/-!
Verification of the pvbc visitor-counter badge service (src/src/main.rs).

The service has two components:
* a counter store backed by one Postgres table
  `counts(id UUID PRIMARY KEY, count BIGINT NOT NULL DEFAULT 0)`,
  driven by exactly two SQL statements in `main.rs`
  (`INSERT ... VALUES (gen_random_uuid(), 0) RETURNING id` in `new_uuid`,
   `UPDATE counts SET count = count + 1 WHERE id = $1 RETURNING count` in
   `get_badge`);
* a badge renderer (the external `shields` crate) driven by the query
  parameters that `get_badge` extracts.

The store is modelled as an association list from identifiers to counts,
with the table's PRIMARY KEY meaning at most one row per id is ever
matched.  Identifiers (128-bit UUIDs) are modelled as an abstract type
with decidable equality, here `Nat`.  Counts are modelled as `Int`
(the `BIGINT` column read as `i64` in `get_badge`); a separate model
`incrementAndGet64` captures the signed 64-bit bound of the column,
where PostgreSQL raises a `bigint out of range` error instead of
completing an increment past `2^63 - 1`.
-/

set_option autoImplicit false

namespace Pvbc

/-- Identifiers: opaque 128-bit UUIDs, modelled abstractly as naturals. -/
abbrev Uuid := Nat

/-- The `counts` table: rows `(id, count)` with `id` the primary key. -/
abbrev Store := List (Uuid × Int)

/-- Row lookup by primary key (`WHERE id = $1` against a PRIMARY KEY column:
at most the first matching row counts). -/
def lookupCount : Store → Uuid → Option Int
  | [], _ => none
  | (k, c) :: rest, id => if k = id then some c else lookupCount rest id

/-- `new_uuid`, lines 66-92 of main.rs: the SQL
`INSERT INTO counts (id, count) VALUES (gen_random_uuid(), 0) RETURNING id`
inserts a fresh row with count 0 and returns its id.  The randomly
generated identifier is a parameter of the model. -/
def createCounter (s : Store) (fresh : Uuid) : Uuid × Store :=
  (fresh, (fresh, 0) :: s)

/-- The atomic increment of `get_badge`, lines 99-110 of main.rs: the SQL
`UPDATE counts SET count = count + 1 WHERE id = $1 RETURNING count`
executed as one statement.  Returns the new count (`query_opt` row) when a
row with the given id exists, `none` otherwise, together with the updated
table. -/
def incrementAndGet : Store → Uuid → Option Int × Store
  | [], _ => (none, [])
  | (k, c) :: rest, id =>
    if k = id then (some (c + 1), (k, c + 1) :: rest)
    else
      let r := incrementAndGet rest id
      (r.1, (k, c) :: r.2)

/-- Run a list of increment calls in the given order.  Each call is one
indivisible `incrementAndGet` (the source performs the whole
read-modify-write as a single SQL statement), so an arbitrary concurrent
schedule of calls is some sequential order of them. -/
def runCalls : Store → List Uuid → List (Option Int) × Store
  | s, [] => ([], s)
  | s, id :: rest =>
    let r := incrementAndGet s id
    let rs := runCalls r.2 rest
    (r.1 :: rs.1, rs.2)

/-- `n` sequential calls to `incrementAndGet` on the same id. -/
def incrementN (s : Store) (id : Uuid) (n : Nat) : List (Option Int) × Store :=
  runCalls s (List.replicate n id)

/-! ## Badge renderer and HTTP layer -/

/-- The five badge styles of the `shields` crate used by the source. -/
inductive BadgeStyle
  | Flat
  | FlatSquare
  | Plastic
  | ForTheBadge
  | Social
  deriving DecidableEq

/-- `badge_style_from_string`, lines 55-64 of main.rs. -/
def badge_style_from_string (s : String) : Option BadgeStyle :=
  match s with
  | "flat-square" => some BadgeStyle.FlatSquare
  | "plastic" => some BadgeStyle.Plastic
  | "for-the-badge" => some BadgeStyle.ForTheBadge
  | "social" => some BadgeStyle.Social
  | "flat" => some BadgeStyle.Flat
  | _ => none

/-- Query parameters: the `Query<HashMap<String, String>>` extractor gives at
most one value per key; modelled as an association list with first-match
lookup. -/
abbrev Params := List (String × String)

/-- `params.get(key)` on the query-parameter map. -/
def getParam : Params → String → Option String
  | [], _ => none
  | (k, v) :: rest, key => if k = key then some v else getParam rest key

/-- The badge configuration assembled by `get_badge` (the `shields` crate's
builder state after the calls on lines 126-151 of main.rs). -/
structure Badge where
  style : BadgeStyle
  label : String
  message : String
  logo : Option String
  logoColor : Option String
  labelColor : Option String
  messageColor : Option String
  deriving DecidableEq

/-- Badge construction from the query parameters and the stringified count,
lines 121-151 of main.rs: style falls back to `Flat` when absent or
unrecognized, label defaults to `"visitors"`, the message is the count, and
logo / logoColor / labelColor are set only when present; the message color
is `params.get("color").or(params.get("messageColor"))`. -/
def buildBadge (params : Params) (current_count : String) : Badge :=
  { style := ((getParam params "style").bind badge_style_from_string).getD BadgeStyle.Flat
    label := (getParam params "label").getD "visitors"
    message := current_count
    logo := getParam params "logo"
    logoColor := getParam params "logoColor"
    labelColor := getParam params "labelColor"
    messageColor := (getParam params "color").or (getParam params "messageColor") }

/-- Modelled from the spec: `Badge::build` of the external `shields` crate is
not part of this repository's sources; the spec describes it as a pure,
deterministic function from style, label, message and the optional overrides
to a complete SVG document, with malformed colour and logo values passed
through unvalidated.  It is modelled as a function of exactly the `Badge`
fields. -/
def render (b : Badge) : String :=
  let styleName :=
    match b.style with
    | BadgeStyle.Flat => "flat"
    | BadgeStyle.FlatSquare => "flat-square"
    | BadgeStyle.Plastic => "plastic"
    | BadgeStyle.ForTheBadge => "for-the-badge"
    | BadgeStyle.Social => "social"
  "<svg xmlns=\"http://www.w3.org/2000/svg\" data-style=\"" ++ styleName
    ++ "\" data-logo=\"" ++ b.logo.getD "" ++ "\" data-logo-color=\""
    ++ b.logoColor.getD "" ++ "\" data-label-color=\"" ++ b.labelColor.getD ""
    ++ "\" data-message-color=\"" ++ b.messageColor.getD "" ++ "\"><text>"
    ++ b.label ++ "</text><text>" ++ b.message ++ "</text></svg>"

/-- An HTTP response: status code, optional explicitly-set Content-Type
header, body. -/
structure HttpResponse where
  status : Nat
  contentType : Option String
  body : String
  deriving DecidableEq

/-- `internal_error`, lines 27-32 of main.rs: maps any error to
`(StatusCode::INTERNAL_SERVER_ERROR, err.to_string())`, i.e. 500 with the
error's description as the body. -/
def internal_error (err : String) : Nat × String := (500, err)

/-- The response of `get_badge`, lines 94-157 of main.rs, as a function of
the outcome of the database round-trip (`query_opt`: an error, or an
optional returned row) and the query parameters.  An error goes through
`internal_error`; a missing row yields `404` with body `"UUID not found"`;
a returned count is stringified and rendered as a badge with
`Content-Type: image/svg+xml`. -/
def get_badge_response (queryResult : Except String (Option Int))
    (params : Params) : HttpResponse :=
  match queryResult with
  | Except.error e => ⟨(internal_error e).1, none, (internal_error e).2⟩
  | Except.ok none => ⟨404, none, "UUID not found"⟩
  | Except.ok (some current_count) =>
      ⟨200, some "image/svg+xml", render (buildBadge params (toString current_count))⟩

/-- The onboarding message of `new_uuid`, lines 78-91 of main.rs, with the
new identifier's string form substituted for the two format placeholders. -/
def welcome_message (uuid : String) : String :=
  "Welcome! This is a simple API for generating visitor count badges using shields.io.\n\nYour new unique ID is: "
    ++ uuid
    ++ "\nTo begin tracking, visit: /"
    ++ uuid
    ++ "\n\nYou can customize the badge appearance using any of the query parameters supported by shields.io static badges:\nhttps://shields.io/badges/static-badge\n\nNote: Only query parameters are supported.\n      `logoSize`, `cacheSeconds`, and `link` are not supported.\n      The default value for label is \"visitors\""

/-- The response of `new_uuid`, lines 66-92 of main.rs, as a function of the
outcome of the `INSERT ... RETURNING id` round-trip: an error goes through
`internal_error`; success returns the onboarding message for the fresh
identifier. -/
def new_uuid_response (queryResult : Except String String) : HttpResponse :=
  match queryResult with
  | Except.error e => ⟨(internal_error e).1, none, (internal_error e).2⟩
  | Except.ok uuid => ⟨200, none, welcome_message uuid⟩

/-! ## 64-bit bound of the stored count -/

/-- Largest `i64` value: the `count BIGINT` column (line 183 of main.rs)
and the `i64` read in `get_badge` (line 112) bound the representable
count. -/
def INT64_MAX : Int := 2 ^ 63 - 1

/-- The increment of `get_badge` with the stored count carried in the
`BIGINT` column fixed by the schema (line 183 of main.rs) and read as `i64`
(line 112): PostgreSQL evaluates `count + 1` in 64-bit signed arithmetic
and, when the result would exceed `2^63 - 1`, raises a
`bigint out of range` error rather than wrapping; the failed statement
leaves the row unchanged and the error is surfaced to the handler, the
application code itself having no overflow guard. -/
def incrementAndGet64 : Store → Uuid → Except String (Option Int) × Store
  | [], _ => (Except.ok none, [])
  | (k, c) :: rest, id =>
    if k = id then
      if c + 1 ≤ INT64_MAX then (Except.ok (some (c + 1)), (k, c + 1) :: rest)
      else (Except.error "bigint out of range", (k, c) :: rest)
    else
      let r := incrementAndGet64 rest id
      (r.1, (k, c) :: r.2)

/-! ## Store lemmas -/

theorem incrementAndGet_of_lookup_none {s : Store} {id : Uuid}
    (h : lookupCount s id = none) : incrementAndGet s id = (none, s) := by
  induction s with
  | nil => rfl
  | cons hd tl ih =>
    obtain ⟨k, c⟩ := hd
    by_cases hk : k = id
    · simp [lookupCount, hk] at h
    · simp [lookupCount, hk] at h
      simp [incrementAndGet, hk, ih h]

theorem incrementAndGet_fst_of_lookup_some {s : Store} {id : Uuid} {c : Int}
    (h : lookupCount s id = some c) : (incrementAndGet s id).1 = some (c + 1) := by
  induction s with
  | nil => simp [lookupCount] at h
  | cons hd tl ih =>
    obtain ⟨k, c'⟩ := hd
    by_cases hk : k = id
    · simp [lookupCount, hk] at h
      simp [incrementAndGet, hk, h]
    · simp [lookupCount, hk] at h
      simp [incrementAndGet, hk, ih h]

theorem lookup_incrementAndGet_of_lookup_some {s : Store} {id : Uuid} {c : Int}
    (h : lookupCount s id = some c) :
    lookupCount (incrementAndGet s id).2 id = some (c + 1) := by
  induction s with
  | nil => simp [lookupCount] at h
  | cons hd tl ih =>
    obtain ⟨k, c'⟩ := hd
    by_cases hk : k = id
    · simp [lookupCount, hk] at h
      simp [incrementAndGet, lookupCount, hk, h]
    · simp [lookupCount, hk] at h
      simp [incrementAndGet, lookupCount, hk, ih h]

theorem lookup_incrementAndGet_ne {s : Store} {id id' : Uuid} (hne : id' ≠ id) :
    lookupCount (incrementAndGet s id).2 id' = lookupCount s id' := by
  induction s with
  | nil => rfl
  | cons hd tl ih =>
    obtain ⟨k, c⟩ := hd
    by_cases hk : k = id
    · subst hk
      have hk' : k ≠ id' := fun h => hne h.symm
      simp [incrementAndGet, lookupCount, hk']
    · simp [incrementAndGet, lookupCount, hk]
      by_cases hk' : k = id'
      · simp [hk']
      · simp [hk', ih]

/-- Running `n` replicated calls starting from a row holding `c` returns
`some (c+1), some (c+2), …, some (c+n)` in order and leaves the row at
`c + n`. -/
theorem runCalls_replicate {s : Store} {id : Uuid} {c : Int}
    (h : lookupCount s id = some c) (n : Nat) :
    (runCalls s (List.replicate n id)).1
      = (List.range n).map (fun i : Nat => some (c + (i : Int) + 1)) ∧
    lookupCount (runCalls s (List.replicate n id)).2 id = some (c + n) := by
  induction n generalizing s c with
  | zero => simpa [runCalls] using h
  | succ n ih =>
    have h1 := incrementAndGet_fst_of_lookup_some h
    have h2 := lookup_incrementAndGet_of_lookup_some h
    obtain ⟨ihl, ihs⟩ := ih h2
    constructor
    · rw [List.range_succ_eq_map, List.map_cons, List.map_map]
      simp only [List.replicate_succ, runCalls, h1, ihl]
      congr 1
      · norm_num
      · apply List.map_congr_left
        intro i _
        simp only [Function.comp_apply, Option.some.injEq]
        push_cast
        ring
    · simp only [List.replicate_succ, runCalls, ihs]
      congr 1
      push_cast
      ring

/-! ## Claim theorems -/

/-- C1: for every identifier created by `CreateCounter` (a row inserted with
count 0), `n` sequential successful calls to `IncrementAndGet` on that
identifier return exactly `1, 2, …, n` in order; in particular the first
call returns 1, and after the `n` calls the stored count is exactly `n`,
each successful increment having increased it by exactly 1. -/
theorem c1_sequential_increments (s : Store) (fresh : Uuid) (n : Nat) :
    (incrementN (createCounter s fresh).2 fresh n).1
      = (List.range n).map (fun i : Nat => some ((i : Int) + 1)) ∧
    lookupCount (incrementN (createCounter s fresh).2 fresh n).2 fresh
      = some (n : Int) := by
  have h0 : lookupCount (createCounter s fresh).2 fresh = some 0 := by
    simp [createCounter, lookupCount]
  obtain ⟨hl, hs⟩ := runCalls_replicate h0 n
  refine ⟨?_, ?_⟩
  · rw [incrementN, hl]
    apply List.map_congr_left
    intro i _
    norm_num
  · rw [incrementN, hs]
    norm_num

/-- C2: any `n` concurrent calls to `IncrementAndGet` on the same identifier
— each call being the single atomic read-modify-write SQL statement of the
source, so a concurrent execution is some sequential order of the
indivisible calls — leave the stored count at exactly `n` and return the
values `1, …, n` with no duplicates and no omissions. -/
theorem c2_concurrent_increments (s : Store) (id : Uuid) (n : Nat)
    (calls : List Uuid) (hcalls : calls.Perm (List.replicate n id))
    (h0 : lookupCount s id = some 0) :
    (runCalls s calls).1
      = (List.range n).map (fun i : Nat => some ((i : Int) + 1)) ∧
    lookupCount (runCalls s calls).2 id = some (n : Int) := by
  have hc : calls = List.replicate n id := by
    refine List.eq_replicate_iff.mpr ⟨by simpa using hcalls.length_eq, ?_⟩
    intro b hb
    exact List.eq_of_mem_replicate (hcalls.mem_iff.mp hb)
  subst hc
  obtain ⟨hl, hs⟩ := runCalls_replicate h0 n
  refine ⟨?_, ?_⟩
  · rw [hl]
    apply List.map_congr_left
    intro i _
    norm_num
  · rw [hs]
    norm_num

/-- Witness for C2 at a concrete store and schedule. -/
theorem c2_concurrent_increments_witness :
    (runCalls [(7, 0)] [7, 7]).1
      = (List.range 2).map (fun i : Nat => some ((i : Int) + 1)) ∧
    lookupCount (runCalls [(7, 0)] [7, 7]).2 7 = some (2 : Int) :=
  c2_concurrent_increments [(7, 0)] 7 2 [7, 7] (List.Perm.refl _) (by decide)

/-- C3: `IncrementAndGet` on an identifier with no matching row returns the
no-row outcome (`query_opt` yields no row, not a storage error), and the
handler maps it to a 404 response whose body is exactly "UUID not found". -/
theorem c3_unknown_identifier (s : Store) (id : Uuid) (params : Params)
    (h : lookupCount s id = none) :
    (incrementAndGet s id).1 = none ∧
    get_badge_response (Except.ok (incrementAndGet s id).1) params
      = ⟨404, none, "UUID not found"⟩ := by
  rw [incrementAndGet_of_lookup_none h]
  exact ⟨rfl, rfl⟩

/-- Witness for C3 on the empty store. -/
theorem c3_unknown_identifier_witness :
    (incrementAndGet [] 0).1 = none ∧
    get_badge_response (Except.ok (incrementAndGet [] 0).1) []
      = ⟨404, none, "UUID not found"⟩ :=
  c3_unknown_identifier [] 0 [] rfl

/-- C9: an unsuccessful `IncrementAndGet` (no matching row) leaves the store
unchanged, and a call for one identifier never changes the count stored
under any other identifier. -/
theorem c9_frame_property (s : Store) (id : Uuid) :
    ((incrementAndGet s id).1 = none → (incrementAndGet s id).2 = s) ∧
    (∀ id' : Uuid, id' ≠ id →
      lookupCount (incrementAndGet s id).2 id' = lookupCount s id') := by
  constructor
  · intro h
    cases hl : lookupCount s id with
    | none => rw [incrementAndGet_of_lookup_none hl]
    | some c =>
        rw [incrementAndGet_fst_of_lookup_some hl] at h
        cases h
  · intro id' hne
    exact lookup_incrementAndGet_ne hne

/-- Witness for C9: a miss leaves the store intact, and a hit on id 3 leaves
id 4 untouched. -/
theorem c9_frame_property_witness :
    (incrementAndGet [(3, 5)] 4).2 = [(3, 5)] ∧
    lookupCount (incrementAndGet [(3, 5)] 3).2 4 = lookupCount [(3, 5)] 4 :=
  ⟨(c9_frame_property [(3, 5)] 4).1 (by decide),
   (c9_frame_property [(3, 5)] 3).2 4 (by decide)⟩

theorem badge_style_from_string_eq_none {st : String}
    (h1 : st ≠ "flat-square") (h2 : st ≠ "plastic") (h3 : st ≠ "for-the-badge")
    (h4 : st ≠ "social") (h5 : st ≠ "flat") :
    badge_style_from_string st = none := by
  unfold badge_style_from_string
  split <;> simp_all

/-- C4: the style parameter resolves to the style named by the string for
each of the five recognized names, and to `Flat` for every other string as
well as when the parameter is absent — a silent fallback, never an error. -/
theorem c4_style_resolution :
    (∀ params c, getParam params "style" = some "flat-square" →
      (buildBadge params c).style = BadgeStyle.FlatSquare) ∧
    (∀ params c, getParam params "style" = some "plastic" →
      (buildBadge params c).style = BadgeStyle.Plastic) ∧
    (∀ params c, getParam params "style" = some "for-the-badge" →
      (buildBadge params c).style = BadgeStyle.ForTheBadge) ∧
    (∀ params c, getParam params "style" = some "social" →
      (buildBadge params c).style = BadgeStyle.Social) ∧
    (∀ params c, getParam params "style" = some "flat" →
      (buildBadge params c).style = BadgeStyle.Flat) ∧
    (∀ params c st, getParam params "style" = some st →
      st ≠ "flat-square" → st ≠ "plastic" → st ≠ "for-the-badge" →
      st ≠ "social" → st ≠ "flat" →
      (buildBadge params c).style = BadgeStyle.Flat) ∧
    (∀ params c, getParam params "style" = none →
      (buildBadge params c).style = BadgeStyle.Flat) := by
  refine ⟨?_, ?_, ?_, ?_, ?_, ?_, ?_⟩
  · intro params c h
    simp [buildBadge, h, badge_style_from_string]
  · intro params c h
    simp [buildBadge, h, badge_style_from_string]
  · intro params c h
    simp [buildBadge, h, badge_style_from_string]
  · intro params c h
    simp [buildBadge, h, badge_style_from_string]
  · intro params c h
    simp [buildBadge, h, badge_style_from_string]
  · intro params c st h h1 h2 h3 h4 h5
    simp [buildBadge, h, badge_style_from_string_eq_none h1 h2 h3 h4 h5]
  · intro params c h
    simp [buildBadge, h]

/-- Witness for C4: an unrecognized style string, an absent style, and a
recognized one. -/
theorem c4_style_resolution_witness :
    (buildBadge [("style", "bogus")] "42").style = BadgeStyle.Flat ∧
    (buildBadge [] "42").style = BadgeStyle.Flat ∧
    (buildBadge [("style", "social")] "42").style = BadgeStyle.Social :=
  ⟨c4_style_resolution.2.2.2.2.2.1 [("style", "bogus")] "42" "bogus" rfl
      (by decide) (by decide) (by decide) (by decide) (by decide),
   c4_style_resolution.2.2.2.2.2.2 [] "42" rfl,
   c4_style_resolution.2.2.2.1 [("style", "social")] "42" rfl⟩

/-- C5: the message color is taken from the `color` parameter when present
and otherwise from `messageColor`; when both are present `color` wins, and
`messageColor` alone builds exactly the same badge as the same value passed
via `color`. -/
theorem c5_color_aliasing (params : Params) (c v w : String) :
    (getParam params "color" = some v →
      (buildBadge params c).messageColor = some v) ∧
    (getParam params "color" = none →
      (buildBadge params c).messageColor = getParam params "messageColor") ∧
    buildBadge [("messageColor", v)] c = buildBadge [("color", v)] c ∧
    (buildBadge [("color", v), ("messageColor", w)] c).messageColor = some v := by
  refine ⟨?_, ?_, ?_, ?_⟩
  · intro h
    simp [buildBadge, h]
  · intro h
    simp [buildBadge, h]
  · simp [buildBadge, getParam, badge_style_from_string]
  · simp [buildBadge, getParam]

/-- Witness for C5 at concrete parameter maps. -/
theorem c5_color_aliasing_witness :
    (buildBadge [("color", "red")] "42").messageColor = some "red" ∧
    (buildBadge [("messageColor", "red")] "42").messageColor
      = getParam [("messageColor", "red")] "messageColor" ∧
    buildBadge [("messageColor", "red")] "42"
      = buildBadge [("color", "red")] "42" :=
  ⟨(c5_color_aliasing [("color", "red")] "42" "red" "blue").1 rfl,
   (c5_color_aliasing [("messageColor", "red")] "42" "red" "blue").2.1 rfl,
   (c5_color_aliasing [] "42" "red" "blue").2.2.1⟩

/-- C6: when no `label` query parameter is supplied the badge label is
"visitors". -/
theorem c6_label_default (params : Params) (c : String)
    (h : getParam params "label" = none) :
    (buildBadge params c).label = "visitors" := by
  simp [buildBadge, h]

/-- Witness for C6 with an empty parameter map. -/
theorem c6_label_default_witness : (buildBadge [] "42").label = "visitors" :=
  c6_label_default [] "42" rfl

/-- C7: the renderer is a deterministic function of style, label, message
and the optional overrides: two calls with identical arguments produce
byte-identical SVG documents. -/
theorem c7_render_deterministic (style : BadgeStyle) (label message : String)
    (logo logoColor labelColor messageColor : Option String) :
    render ⟨style, label, message, logo, logoColor, labelColor, messageColor⟩
      = render ⟨style, label, message, logo, logoColor, labelColor, messageColor⟩ :=
  rfl

/-- C8: a persistence-layer error is not caught, masked or retried: both
handlers map it through `internal_error` to a 500 response whose body is
the error's own description. -/
theorem c8_storage_errors_surface (e : String) (params : Params) :
    internal_error e = (500, e) ∧
    get_badge_response (Except.error e) params = ⟨500, none, e⟩ ∧
    new_uuid_response (Except.error e) = ⟨500, none, e⟩ :=
  ⟨rfl, rfl, rfl⟩

theorem incrementAndGet64_of_lookup_some {s : Store} {id : Uuid} {c : Int}
    (h : lookupCount s id = some c) :
    (c + 1 ≤ INT64_MAX →
      (incrementAndGet64 s id).1 = Except.ok (some (c + 1)) ∧
      lookupCount (incrementAndGet64 s id).2 id = some (c + 1)) ∧
    (INT64_MAX < c + 1 →
      (incrementAndGet64 s id).1 = Except.error "bigint out of range" ∧
      (incrementAndGet64 s id).2 = s) := by
  induction s with
  | nil => simp [lookupCount] at h
  | cons hd tl ih =>
    obtain ⟨k, c'⟩ := hd
    by_cases hk : k = id
    · simp [lookupCount, hk] at h
      subst h
      constructor
      · intro hb
        simp [incrementAndGet64, lookupCount, hk, hb]
      · intro hb
        simp [incrementAndGet64, lookupCount, hk, not_le.mpr hb]
    · simp [lookupCount, hk] at h
      obtain ⟨ih1, ih2⟩ := ih h
      constructor
      · intro hb
        obtain ⟨a, b⟩ := ih1 hb
        simp [incrementAndGet64, lookupCount, hk, a, b]
      · intro hb
        obtain ⟨a, b⟩ := ih2 hb
        simp [incrementAndGet64, lookupCount, hk, a, b]

/-- Counterexample to C10 as stated: at the largest representable count
the increment does not wrap to a negative value — the database raises a
`bigint out of range` storage error, the stored count is unchanged (still
`2^63 - 1`, non-negative, not decreased), so the non-negative
never-decreasing invariant does not fail at `2^63 - 1`. -/
theorem c10_no_wrap_counterexample :
    (incrementAndGet64 [(1, INT64_MAX)] 1).1
      = Except.error "bigint out of range" ∧
    (incrementAndGet64 [(1, INT64_MAX)] 1).2 = [(1, INT64_MAX)] ∧
    lookupCount (incrementAndGet64 [(1, INT64_MAX)] 1).2 1 = some INT64_MAX ∧
    (0 : Int) ≤ INT64_MAX :=
  ⟨rfl, rfl, rfl, by decide⟩

/-- C10 (amended): the stored count is a signed 64-bit integer (`BIGINT`
in the schema, read as `i64`) and the application code has no overflow
guard; an increment succeeds exactly when the count is below `2^63 - 1`,
returning and storing `c + 1` (non-negative, strictly larger), while at
`c = 2^63 - 1` the database raises a `bigint out of range` storage error
— mapped by the handler to a 500 with that description — leaving the row
unchanged, so the non-negative never-decreasing invariant holds at every
count; only the increment's success is limited to counts below
`2^63 - 1`. -/
theorem c10_int64_bound (s : Store) (id : Uuid) (c : Int) (params : Params)
    (h : lookupCount s id = some c) :
    (0 ≤ c → c < INT64_MAX →
      (incrementAndGet64 s id).1 = Except.ok (some (c + 1)) ∧
      lookupCount (incrementAndGet64 s id).2 id = some (c + 1) ∧
      c < c + 1 ∧ 0 ≤ c + 1) ∧
    (c = INT64_MAX →
      (incrementAndGet64 s id).1 = Except.error "bigint out of range" ∧
      (incrementAndGet64 s id).2 = s ∧
      lookupCount (incrementAndGet64 s id).2 id = some c ∧
      get_badge_response (incrementAndGet64 s id).1 params
        = ⟨500, none, "bigint out of range"⟩) := by
  obtain ⟨hok, herr⟩ := incrementAndGet64_of_lookup_some h
  constructor
  · intro h0 hmax
    obtain ⟨a, b⟩ := hok (by omega)
    exact ⟨a, b, by omega, by omega⟩
  · intro hc
    subst hc
    obtain ⟨a, b⟩ := herr (by omega)
    refine ⟨a, b, ?_, ?_⟩
    · rw [b]
      exact h
    · rw [a]
      rfl

/-- Witness for C10 at a small stored count and at the largest one. -/
theorem c10_int64_bound_witness :
    ((incrementAndGet64 [(1, (5 : Int))] 1).1 = Except.ok (some (5 + 1)) ∧
     lookupCount (incrementAndGet64 [(1, (5 : Int))] 1).2 1 = some (5 + 1)) ∧
    ((incrementAndGet64 [(1, INT64_MAX)] 1).1
        = Except.error "bigint out of range" ∧
     (incrementAndGet64 [(1, INT64_MAX)] 1).2 = [(1, INT64_MAX)] ∧
     get_badge_response (incrementAndGet64 [(1, INT64_MAX)] 1).1 []
        = ⟨500, none, "bigint out of range"⟩) := by
  have h1 := c10_int64_bound [(1, (5 : Int))] 1 5 [] rfl
  have h2 := c10_int64_bound [(1, INT64_MAX)] 1 INT64_MAX [] rfl
  obtain ⟨a1, a2, -, -⟩ := h1.1 (by decide) (by decide)
  obtain ⟨b1, b2, -, b4⟩ := h2.2 rfl
  exact ⟨⟨a1, a2⟩, b1, b2, b4⟩


end Pvbc
